import Mathlib

/-!
Verification of the fancylog sub-log lifecycle and header-writer claims.

The development shallowly embeds the relevant parts of
`fancylog/sublog.py` and `fancylog/fancylog.py`.  The Python `logging`
collaborator is modelled explicitly: a registry maps channel names to
loggers (handler list, propagation flag, level), and emitting a record
appends one `Event` per handler that receives it, walking the dotted
ancestor chain while `propagate` is true, exactly as
`logging.Logger.callHandlers` does.  Levels use the CPython numeric
values (DEBUG = 10, INFO = 20, WARNING = 30); a handler receives a
record when the record level is at least the handler level, and a
logger emits when the record level is at least its effective level
(first non-zero level on the ancestor chain, the root defaulting to
WARNING).
-/

namespace Fancylog

abbrev Level := Nat

def DEBUG : Level := 10
def INFO : Level := 20
def WARNING : Level := 30

/-- A sink attached to a channel: a file handler (with its path) or a
console handler (`RichHandler` / `StreamHandler`, which differ only in
presentation and are modelled as one constructor). -/
inductive HandlerKind where
  | file (path : String)
  | console
deriving DecidableEq

structure Handler where
  kind : HandlerKind
  level : Level
deriving DecidableEq

/-- The per-channel state held by the logging registry: handler list,
propagation flag and level.  Fresh non-root loggers have no handlers,
propagate = true and level NOTSET (0); the root logger defaults to
WARNING (30). -/
structure Logger where
  handlers : List Handler := []
  propagate : Bool := true
  level : Level := 0
deriving DecidableEq

/-- One delivery of a log record to one handler: `owner` is the name of
the channel the receiving handler is attached to. -/
structure Event where
  owner : String
  handler : Handler
  level : Level
  msg : String
deriving DecidableEq

abbrev Registry := List (String × Logger)

def rootLogger : Logger := { propagate := true, level := 30 }

/-- Look a channel up in the registry; unknown channels behave as fresh
default loggers (the root, named "", defaults to level WARNING). -/
def getLogger (reg : Registry) (name : String) : Logger :=
  match reg.lookup name with
  | some lg => lg
  | none => if name = "" then rootLogger else {}

/-- Split a character list at every occurrence of `c` (like Python's
`str.split`). -/
def splitOnCharAux (c : Char) : List Char → List (List Char)
  | [] => [[]]
  | x :: xs =>
    let r := splitOnCharAux c xs
    if x = c then [] :: r
    else
      match r with
      | [] => [[x]]
      | y :: ys => (x :: y) :: ys

def nameParts (name : String) : List String :=
  (splitOnCharAux '.' name.data).map (fun l => String.mk l)

/-- All dotted prefixes of a part list, shortest first:
`["a","b","c"] ↦ ["a", "a.b", "a.b.c"]`. -/
def dottedPrefixes : List String → List String
  | [] => []
  | p :: rest => p :: (dottedPrefixes rest).map (fun s => p ++ "." ++ s)

/-- The ancestor chain a record logged on `name` walks: the channel
itself, then each dotted ancestor, then the root (named ""). -/
def chain (name : String) : List String :=
  name ::
    (if name = "" then []
     else ((dottedPrefixes (nameParts name)).dropLast).reverse ++ [""])

def effLoop (reg : Registry) : List String → Level
  | [] => 0
  | c :: rest =>
    let l := (getLogger reg c).level
    if l ≠ 0 then l else effLoop reg rest

/-- `Logger.getEffectiveLevel`: first explicitly-set level on the
ancestor chain (0 = NOTSET if none is set anywhere). -/
def effectiveLevel (reg : Registry) (name : String) : Level :=
  effLoop reg (chain name)

/-- `Logger.callHandlers`: walk the chain, delivering the record to
every handler whose level passes, stopping after the first channel
whose `propagate` flag is false. -/
def deliveredOnChain (reg : Registry) (lvl : Level) (msg : String) :
    List String → List Event
  | [] => []
  | c :: rest =>
    let lg := getLogger reg c
    let here := lg.handlers.filterMap
      (fun h =>
        if h.level ≤ lvl then
          some { owner := c, handler := h, level := lvl, msg := msg }
        else none)
    if lg.propagate then here ++ deliveredOnChain reg lvl msg rest else here

/-- The events one `logger.log(lvl, msg)` call on channel `name`
delivers, given the registry at that moment. -/
def delivered (reg : Registry) (name : String) (lvl : Level)
    (msg : String) : List Event :=
  if effectiveLevel reg name ≤ lvl then
    deliveredOnChain reg lvl msg (chain name)
  else []

/-- Whole-process logging state: the channel registry plus the trace of
all deliveries so far. -/
structure LogState where
  loggers : Registry := []
  events : List Event := []
deriving DecidableEq

def LogState.get (st : LogState) (name : String) : Logger :=
  getLogger st.loggers name

def LogState.set (st : LogState) (name : String) (lg : Logger) : LogState :=
  { st with loggers := (name, lg) :: st.loggers }

def LogState.log (st : LogState) (name : String) (lvl : Level)
    (msg : String) : LogState :=
  { st with events := st.events ++ delivered st.loggers name lvl msg }

/-- Decimal rendering of a natural number (fuel-based so that it
reduces in the kernel). -/
def natToCharsAux : Nat → Nat → List Char
  | 0, _ => []
  | fuel + 1, n =>
    if n < 10 then [Char.ofNat (48 + n)]
    else natToCharsAux fuel (n / 10) ++ [Char.ofNat (48 + n % 10)]

/-- Decimal rendering of an integer, as Python's `%d` formats it. -/
def intToDecimal : Int → String
  | .ofNat n => String.mk (natToCharsAux (n + 1) n)
  | .negSucc m => String.mk ('-' :: natToCharsAux (m + 2) (m + 1))

/-! ## Embedding of `fancylog/sublog.py` -/

/-- Resolution of the sub-log channel name, `SubLog.__init__` lines
66-69.  Python truthiness: `None` and the empty string both fall back
to the `"fancylog"` root marker. -/
def subLoggerName (parent_logger_name : Option String) (name : String) :
    String :=
  match parent_logger_name with
  | some p =>
    if p != "" then p ++ ".sublog." ++ name
    else "fancylog.sublog." ++ name
  | none => "fancylog.sublog." ++ name

/-- The channel `logging.getLogger(parent_logger_name)` /
`logging.getLogger()` resolves to in `SubLog.__init__` lines 100-103
("" is the root logger). -/
def parentChannel (parent_logger_name : Option String) : String :=
  match parent_logger_name with
  | some p => p
  | none => ""

/-- The log-file path `SubLog.__init__` resolves (sublog.py lines
60-63): the name, optionally suffixed with the creation timestamp
(`now` stands for the `strftime` text), joined under `output_dir` with
the `.log` extension. -/
def subLogFilePath (name output_dir : String) (timestamp : Bool)
    (now : String) : String :=
  output_dir ++ "/" ++ ((if timestamp then name ++ "_" ++ now else name) ++ ".log")

/-- The parent-channel start breadcrumb (sublog.py lines 105-107). -/
def startBreadcrumbMsg (name log_file : String) : String :=
  "Starting sub-log '" ++ name ++ "', see " ++ log_file ++ " for details"

/-- The message logged on the sub-log's own channel at creation
(sublog.py line 108). -/
def startedMsg (name : String) : String :=
  "Sub-log '" ++ name ++ "' started"

structure SubLog where
  name : String
  output_dir : String
  parent_logger_name : Option String
  file_log_level : Level
  log_file : String
  /-- name of `self.logger`'s channel -/
  logger_name : String
  /-- name of `self._parent_logger`'s channel -/
  parent_name : String
deriving DecidableEq

/-- `SubLog.__init__` (sublog.py lines 46-108).  `now` stands for the
`datetime.now().strftime` timestamp text and path joining is modelled
as `dir ++ "/" ++ file`.  Levels are passed numerically (Python passes
the level name and maps it with `getattr(logging, ...)`). -/
def SubLog.init (name output_dir : String)
    (parent_logger_name : Option String) (file_log_level : Level)
    (log_to_console timestamp : Bool) (now : String) (st : LogState) :
    SubLog × LogState :=
  let log_file := subLogFilePath name output_dir timestamp now
  let sub_logger_name := subLoggerName parent_logger_name name
  -- logger.handlers = []; logger.propagate = False; logger.setLevel(...)
  let lg : Logger :=
    { getLogger st.loggers sub_logger_name with
      handlers := [], propagate := false, level := file_log_level }
  -- fh = FileHandler(log_file); fh.setLevel(...); logger.addHandler(fh)
  let fh : Handler := { kind := .file log_file, level := file_log_level }
  let lg := { lg with handlers := lg.handlers ++ [fh] }
  -- optional console handler, always at level DEBUG
  let lg :=
    if log_to_console then
      { lg with handlers := lg.handlers ++ [{ kind := .console, level := DEBUG }] }
    else lg
  let st := st.set sub_logger_name lg
  let parent_name := parentChannel parent_logger_name
  let st := st.log parent_name INFO (startBreadcrumbMsg name log_file)
  let st := st.log sub_logger_name INFO (startedMsg name)
  (⟨name, output_dir, parent_logger_name, file_log_level, log_file,
    sub_logger_name, parent_name⟩, st)

/-- The close-time parent breadcrumb text (sublog.py lines 118-122). -/
def finishBreadcrumb (sl : SubLog) : String :=
  "Sub-log '" ++ sl.name ++ "' finished, log saved to " ++ sl.log_file

/-- The message `close` writes on the sub-log's own channel
(sublog.py line 112). -/
def finishedMsg (name : String) : String :=
  "Sub-log '" ++ name ++ "' finished"

/-- The release loop of `SubLog.close` (sublog.py lines 114-116):
`for handler in self.logger.handlers[:]: handler.close();
self.logger.removeHandler(handler)`.  `closeFails h = true` models
`h.close()` raising; the exception propagates at once, so the failing
handler and all later ones stay attached.  Returns the handlers still
attached and whether an exception escaped. -/
def closeHandlersLoop (closeFails : Handler → Bool) :
    List Handler → List Handler × Bool
  | [] => ([], false)
  | h :: rest =>
    if closeFails h then (h :: rest, true)
    else closeHandlersLoop closeFails rest

/-- The environment in which no `handler.close()` call raises. -/
def noFail : Handler → Bool := fun _ => false

/-- `SubLog.close` (sublog.py lines 110-122).  The second component is
true when an exception escaped from a `handler.close()` call (in which
case the parent breadcrumb on line 118 is never reached). -/
def SubLog.close (sl : SubLog) (closeFails : Handler → Bool)
    (st : LogState) : LogState × Bool :=
  let st := st.log sl.logger_name INFO (finishedMsg sl.name)
  let lg := st.get sl.logger_name
  let res := closeHandlersLoop closeFails lg.handlers
  let st := st.set sl.logger_name { lg with handlers := res.1 }
  if res.2 then (st, true)
  else (st.log sl.parent_name INFO (finishBreadcrumb sl), false)

/-- `n`-fold iteration of `close` (with no handler-close failures). -/
def closeIter (sl : SubLog) : Nat → LogState → LogState
  | 0, st => st
  | n + 1, st => closeIter sl n (sl.close noFail st).1

/-! ### `SubLog.run_subprocess` -/

/-- The child-process outcome `subprocess.run` reports. -/
structure CompletedProcess where
  returncode : Int
  stdout : String
  stderr : String
deriving DecidableEq

/-- Routing choices a caller could try to pass for a stream. -/
inductive StreamOpt where
  | pipe
  | inheritStream
  | devnull
deriving DecidableEq

/-- The keyword arguments of `run_subprocess` that matter to the claim:
the three routing overrides the helper pops (sublog.py lines 144-146)
and an opaque remainder forwarded to `subprocess.run`. -/
structure RunKwargs where
  stdout : Option StreamOpt := none
  stderr : Option StreamOpt := none
  capture_output : Option Bool := none
  rest : List (String × String) := []
deriving DecidableEq

/-- Python `str.strip`: drop leading and trailing whitespace. -/
def stripString (s : String) : String :=
  String.mk
    (((s.data.dropWhile Char.isWhitespace).reverse.dropWhile
        Char.isWhitespace).reverse)

/-- `result.stdout.strip().splitlines()` as used on sublog.py lines
157 and 161 (line separators modelled as `'\n'`; after `strip` the
string has no leading or trailing newline, so splitting on `'\n'`
agrees with Python's `splitlines` except that the all-whitespace
string yields no lines, which the first branch handles). -/
def strippedLines (s : String) : List String :=
  let t := stripString s
  if t = "" then [] else (splitOnCharAux '\n' t.data).map (fun l => String.mk l)

/-- The exact sequence of `(level, message)` log calls
`run_subprocess` performs on the sub-log's channel
(sublog.py lines 142, 156-166). -/
def subprocessLogCalls (command : String) (result : CompletedProcess) :
    List (Level × String) :=
  [(INFO, "Running command: " ++ command)]
    ++ (if result.stdout != "" then
          (strippedLines result.stdout).map
            (fun l => (INFO, "[stdout] " ++ l))
        else [])
    ++ (if result.stderr != "" then
          (strippedLines result.stderr).map
            (fun l => (WARNING, "[stderr] " ++ l))
        else [])
    ++ [(INFO, "Command finished with return code "
          ++ intToDecimal result.returncode)]

/-- `SubLog.run_subprocess` (sublog.py lines 124-168).  `exec` is the
blocking `subprocess.run` collaborator: it receives the command and
the keyword arguments actually passed, in which `stdout` and `stderr`
are forced to `PIPE` and `capture_output` was popped.  The helper is
total: it returns the completed process unchanged whatever the exit
code. -/
def SubLog.run_subprocess (sl : SubLog)
    (exec : String → RunKwargs → CompletedProcess) (command : String)
    (kwargs : RunKwargs) (st : LogState) : LogState × CompletedProcess :=
  -- kwargs.pop("stdout"/"stderr"/"capture_output")
  let cleaned : RunKwargs :=
    { kwargs with stdout := none, stderr := none, capture_output := none }
  -- subprocess.run(command, stdout=PIPE, stderr=PIPE, text=True, **kwargs)
  let result := exec command
    { cleaned with stdout := some .pipe, stderr := some .pipe }
  (((subprocessLogCalls command result).foldl
      (fun s p => s.log sl.logger_name p.1 p.2) st), result)

/-! ### the `sub_log` context manager -/

/-- The `sub_log` context manager (sublog.py lines 171-218): create a
`SubLog`, run the caller-supplied body on it (`yield sl` inside
`try`), and close it in the `finally` block on every exit path.  The
body's outcome — `.ok` for a normal or early exit, `.error` for a
raised fault — is returned unchanged after `close` has run. -/
def sub_log (name output_dir : String)
    (parent_logger_name : Option String) (file_log_level : Level)
    (log_to_console timestamp : Bool) (now : String)
    (body : SubLog → LogState → LogState × Except String Unit)
    (st : LogState) : LogState × Except String Unit :=
  let r := SubLog.init name output_dir parent_logger_name file_log_level
    log_to_console timestamp now st
  let b := body r.1 r.2
  let c := r.1.close noFail b.1
  (c.1, b.2)

/-! ## Embedding of `fancylog/fancylog.py` (session configurer) -/

/-- Python truthiness of the `logger_name` argument. -/
def truthyName : Option String → Bool
  | some n => n != ""
  | none => false

/-- The channel `logging.getLogger(logger_name)` / `logging.getLogger()`
resolves to in `initialise_logger`. -/
def resolvedName : Option String → String
  | some n => n
  | none => ""

/-- `initialise_logger` (fancylog.py lines 457-509): for a truthy
`logger_name` the named channel's handlers are cleared and its
propagation disabled; the level is set, then a file handler (when
`filename` is given) and a console handler (when requested, at
`print_level`) are attached.  Returns the new state and the
configured channel's name. -/
def initialise_logger (filename : Option String)
    (print_level file_level : Level) (log_to_console : Bool)
    (logger_name : Option String) (st : LogState) : LogState × String :=
  let lname := resolvedName logger_name
  let st :=
    if truthyName logger_name then
      st.set lname
        { st.get lname with handlers := [], propagate := false }
    else st
  let lg := st.get lname
  let lg := { lg with level := file_level }
  let lg :=
    match filename with
    | some f =>
      { lg with handlers := lg.handlers ++ [{ kind := .file f, level := file_level }] }
    | none => lg
  let lg :=
    if log_to_console then
      { lg with handlers := lg.handlers ++ [{ kind := .console, level := print_level }] }
    else lg
  (st.set lname lg, lname)

/-- The `ValueError` message of fancylog.py lines 547-551 (Python
adjacent string literals concatenate without separators). -/
def mpConflictMsg : String :=
  "`multiprocessing_aware` is not supported"
    ++ "with `logger_name`. Multiprocess logging"
    ++ "must be performed with the root logger."

/-- `setup_logging` (fancylog.py lines 512-570).  `mpAvailable` models
whether the `multiprocessing_logging` module can be imported.  The
result is `.error` exactly when the code raises (the
multiprocessing/named-logger `ValueError`); note that
`initialise_logger` has already run by then. -/
def setup_logging (filename : Option String)
    (print_level file_level : Level) (multiprocessing_aware : Bool)
    (log_to_console : Bool) (logger_name : Option String)
    (mpAvailable : Bool) (st : LogState) :
    LogState × Except String Unit :=
  let r := initialise_logger filename print_level file_level
    log_to_console logger_name st
  let st := r.1
  if multiprocessing_aware then
    if truthyName logger_name then (st, .error mpConflictMsg)
    else
      -- module-level logging.info(...) calls go to the root channel
      let st := st.log "" INFO "Starting logging"
      let st :=
        if mpAvailable then
          st.log "" INFO
            ("Multiprocessing-logging module found. Logging from all"
              ++ " processes")
        else
          st.log "" INFO
            ("Multiprocessing-logging module not found, not logging "
              ++ "multiple processes.")
      (st, .ok ())
  else
    let st := st.log r.2 INFO "Starting logging"
    let st := st.log r.2 INFO "Not logging multiple processes"
    (st, .ok ())

/-! ## Embedding of `LoggingHeader.write_variables`

Caller-supplied "variable objects" are modelled as Python values: a
primitive (no `__dict__`, rendered by its repr), an instance with a
per-instance attribute dictionary (`__dict__`), or a record/tuple-style
object (namedtuple: indexable and iterable over its field values, with
an `_asdict()` view but no per-instance `__dict__`).  Object identity
carries an explicit id; default Python object equality is identity.
The file writes are collected as a list of chunks, one per
`self.file.write` call, together with the exception that escaped, if
any. -/

inductive PyVal where
  | prim (typeName reprStr : String)
  | obj (id : Nat) (typeName : String) (dict : List (String × PyVal))
  | slotObj (id : Nat) (typeName : String) (fields : List (String × PyVal))

/-- Python `==` as the `in` check of fancylog.py line 369 uses it:
primitives compare by value, objects by identity. -/
def pyEq : PyVal → PyVal → Bool
  | .prim t a, .prim s b => t == s && a == b
  | .obj i _ _, .obj j _ _ => i == j
  | .slotObj i _ _, .slotObj j _ _ => i == j
  | _, _ => false

/-- The text an f-string interpolation produces for a value (object
renderings are abstracted; no claim depends on them). -/
def display : PyVal → String
  | .prim _ r => r
  | .obj _ t _ => "<" ++ t ++ " object>"
  | .slotObj _ t _ => t ++ "(...)"

def className : PyVal → String
  | .prim t _ => t
  | .obj _ t _ => t
  | .slotObj _ t _ => t

/-- `hasattr(v, "__dict__")`: only instances with a per-instance
attribute dictionary. -/
def hasDictAttr : PyVal → Bool
  | .obj _ _ _ => true
  | _ => false

/-- The collection passed as `variable_objects`: either a plain list or
a record/tuple-style object passed directly (whose elements are its
field values). -/
inductive PyCollection where
  | list (elems : List PyVal)
  | slotColl (id : Nat) (typeName : String) (fields : List (String × PyVal))

/-- Iteration / indexing view of the collection
(`variable_objects[0]`, `for v in variable_objects`). -/
def PyCollection.elems : PyCollection → List PyVal
  | .list es => es
  | .slotColl _ _ fs => fs.map (fun p => p.2)

/-- `variable_objects._asdict()` — present only on record/tuple-style
collections; a plain list raises `AttributeError`. -/
def PyCollection.asdict? : PyCollection → Option (List (String × PyVal))
  | .list _ => none
  | .slotColl _ _ fs => some fs

/-- `write_variables_from_object_list` (fancylog.py lines 356-370):
for each object write `"\n<class>:\n"` then one `"attr: value\n"`
line per attribute whose value is not one of the input objects.  An
element without `__dict__` has its class-name line written, then
`variable_object.__dict__` raises `AttributeError`. -/
def objListChunks (all : List PyVal) : List PyVal → List String × Option String
  | [] => ([], none)
  | v :: rest =>
    match v with
    | .obj _ t dict =>
      let lines := (dict.filter (fun p => !(all.any (fun w => pyEq p.2 w)))).map
        (fun p => p.1 ++ ": " ++ display p.2 ++ "\n")
      let r := objListChunks all rest
      (("\n" ++ t ++ ":\n") :: lines ++ r.1, r.2)
    | _ => (["\n" ++ className v ++ ":\n"], some "AttributeError: __dict__")

/-- `write_variables_from_slot_type_list` (fancylog.py lines 343-354):
one `"attr: value\n"` line per item of `variable_objects._asdict()` —
the dictionary view of the collection object itself. -/
def slotTypeChunks (vo : PyCollection) : List String × Option String :=
  match vo.asdict? with
  | some fs => (fs.map (fun p => p.1 ++ ": " ++ display p.2 ++ "\n"), none)
  | none => ([], some "AttributeError: _asdict")

/-- A section banner as `write_section_header` renders it. -/
def sectionBanner (h : String) : String :=
  "**************  " ++ h ++ "  **************"

/-- `write_variables` (fancylog.py lines 327-341): VARIABLES banner
(bottom separator `"\n"`), then the attribute-walk if
`variable_objects[0]` has a `__dict__`, else the slot-type writer on
the collection itself, then the LOGGING banner. -/
def write_variables (vo : PyCollection) : List String × Option String :=
  let top := ["\n\n", sectionBanner "VARIABLES", "\n"]
  match vo.elems.head? with
  | none => (top, some "IndexError")
  | some first =>
    let body :=
      if hasDictAttr first then objListChunks vo.elems vo.elems
      else slotTypeChunks vo
    match body.2 with
    | some e => (top ++ body.1, some e)
    | none => (top ++ body.1 ++ ["\n\n", sectionBanner "LOGGING", "\n\n"], none)

/-! ## Derived definitions used by the claims -/

/-- Number of parent-channel deliveries of the close-time breadcrumb of
`sl` recorded so far. -/
def countFinish (sl : SubLog) (st : LogState) : Nat :=
  (st.events.filter
    (fun e => e.owner == sl.parent_name && e.msg == finishBreadcrumb sl)).length

/-- The event trace `run_subprocess` is expected to append when the
sub-log's channel has the single file handler `fh`. -/
def subprocessExpectedEvents (chan : String) (fh : Handler)
    (command : String) (r : CompletedProcess) : List Event :=
  (subprocessLogCalls command r).map
    (fun p => { owner := chan, handler := fh, level := p.1, msg := p.2 })

/-- The file handler `SubLog.init` attaches (with the default DEBUG
file level). -/
def scopedFileHandler (name output_dir : String) (timestamp : Bool)
    (now : String) : Handler :=
  { kind := .file (subLogFilePath name output_dir timestamp now),
    level := DEBUG }

/-- The event trace one `sub_log` scope (DEBUG file level, no console)
around a body that logs `sentinel` once is expected to append: the
parent start breadcrumb, then — on the sub-log's file handler only —
the started message, the sentinel, and the finished message, then the
parent finish breadcrumb emitted after the sinks were detached.  The
two parent-channel deliveries are expressed through `delivered` because
they depend on how the surrounding state configured the parent
channel. -/
def scopedExpectedEvents (st : LogState) (name output_dir : String)
    (parent : Option String) (timestamp : Bool) (now sentinel : String) :
    List Event :=
  let chan := subLoggerName parent name
  let lf := subLogFilePath name output_dir timestamp now
  let fh := scopedFileHandler name output_dir timestamp now
  let reg1 : Registry :=
    (chan, { handlers := [fh], propagate := false, level := DEBUG })
      :: st.loggers
  let reg2 : Registry :=
    (chan, { handlers := [], propagate := false, level := DEBUG }) :: reg1
  delivered reg1 (parentChannel parent) INFO (startBreadcrumbMsg name lf)
    ++ [{ owner := chan, handler := fh, level := INFO, msg := startedMsg name },
        { owner := chan, handler := fh, level := INFO, msg := sentinel },
        { owner := chan, handler := fh, level := INFO, msg := finishedMsg name }]
    ++ delivered reg2 (parentChannel parent) INFO
        ("Sub-log '" ++ name ++ "' finished, log saved to " ++ lf)

/-! ## Concrete instances used by witnesses and counterexamples -/

def c6SubLog : SubLog :=
  { name := "s", output_dir := "demo", parent_logger_name := some "main",
    file_log_level := DEBUG, log_file := "demo/s.log",
    logger_name := "main.sublog.s", parent_name := "main" }

def c6Handler : Handler := { kind := .file "demo/s.log", level := DEBUG }

def c6State : LogState :=
  { loggers := [("main.sublog.s",
      { handlers := [c6Handler], propagate := false, level := DEBUG })],
    events := [] }

/-- A child process that prints "hello" and exits with code 1. -/
def c6Exec : String → RunKwargs → CompletedProcess :=
  fun _ _ => { returncode := 1, stdout := "hello", stderr := "" }

def c4Handler1 : Handler := { kind := .file "demo/s.log", level := DEBUG }

def c4Handler2 : Handler := { kind := .console, level := DEBUG }

def c4SubLog : SubLog :=
  { name := "s", output_dir := "demo", parent_logger_name := none,
    file_log_level := DEBUG, log_file := "demo/s.log",
    logger_name := "fancylog.sublog.s", parent_name := "" }

def c4State : LogState :=
  { loggers := [("fancylog.sublog.s",
      { handlers := [c4Handler1, c4Handler2], propagate := false,
        level := DEBUG })],
    events := [] }

/-- A handler-close environment in which releasing the file sink
raises. -/
def c4Fails : Handler → Bool := fun h => h == c4Handler1

def c9FileHandler : Handler := { kind := .file "demo/main.log", level := DEBUG }

def c9SubLog : SubLog :=
  { name := "s", output_dir := "demo", parent_logger_name := some "main",
    file_log_level := DEBUG, log_file := "demo/s.log",
    logger_name := "main.sublog.s", parent_name := "main" }

def c9State : LogState :=
  { loggers := [("main",
      { handlers := [c9FileHandler], propagate := false, level := DEBUG }),
     ("main.sublog.s",
      { handlers := [{ kind := .file "demo/s.log", level := DEBUG }],
        propagate := false, level := DEBUG })],
    events := [] }

def c8Records : List PyVal :=
  [PyVal.slotObj 1 "Rec" [("a", PyVal.prim "int" "1")],
   PyVal.slotObj 2 "Rec" [("b", PyVal.prim "int" "2")]]

/-! ## Helper lemmas about the logging model -/

theorem LogState.get_log (st : LogState) (c : String) (lvl : Level)
    (msg : String) (c' : String) : (st.log c lvl msg).get c' = st.get c' :=
  rfl

theorem LogState.set_events (st : LogState) (n : String) (lg : Logger) :
    (st.set n lg).events = st.events :=
  rfl

theorem LogState.set_loggers (st : LogState) (n : String) (lg : Logger) :
    (st.set n lg).loggers = (n, lg) :: st.loggers :=
  rfl

theorem getLogger_cons_self (reg : Registry) (n : String) (lg : Logger) :
    getLogger ((n, lg) :: reg) n = lg := by
  simp [getLogger, List.lookup]

theorem getLogger_cons_ne (reg : Registry) (n m : String) (lg : Logger)
    (h : m ≠ n) : getLogger ((n, lg) :: reg) m = getLogger reg m := by
  simp [getLogger, List.lookup, beq_eq_false_iff_ne.mpr h,
    beq_eq_false_iff_ne.mpr (Ne.symm h)]

theorem LogState.log_loggers (st : LogState) (c : String) (lvl : Level)
    (msg : String) : (st.log c lvl msg).loggers = st.loggers := rfl

theorem LogState.log_events (st : LogState) (c : String) (lvl : Level)
    (msg : String) :
    (st.log c lvl msg).events = st.events ++ delivered st.loggers c lvl msg :=
  rfl

theorem LogState.get_set_self (st : LogState) (n : String) (lg : Logger) :
    (st.set n lg).get n = lg :=
  getLogger_cons_self _ _ _

theorem LogState.get_set_ne (st : LogState) (n m : String) (lg : Logger)
    (h : m ≠ n) : (st.set n lg).get m = st.get m :=
  getLogger_cons_ne _ _ _ _ h

/-- Every event a single log call delivers carries the logged message. -/
theorem deliveredOnChain_msg (reg : Registry) (lvl : Level) (msg : String) :
    ∀ cs, ∀ e ∈ deliveredOnChain reg lvl msg cs, e.msg = msg := by
  intro cs
  induction cs with
  | nil => intro e he; simp [deliveredOnChain] at he
  | cons c rest ih =>
    intro e he
    simp only [deliveredOnChain] at he
    split at he
    · rcases List.mem_append.1 he with h' | h'
      · rcases List.mem_filterMap.1 h' with ⟨h'', _, hsome⟩
        split at hsome
        · cases Option.some.inj hsome; rfl
        · cases hsome
      · exact ih e h'
    · rcases List.mem_filterMap.1 he with ⟨h'', _, hsome⟩
      split at hsome
      · cases Option.some.inj hsome; rfl
      · cases hsome

theorem delivered_msg (reg : Registry) (c : String) (lvl : Level)
    (msg : String) : ∀ e ∈ delivered reg c lvl msg, e.msg = msg := by
  intro e he
  unfold delivered at he
  split at he
  · exact deliveredOnChain_msg reg lvl msg _ e he
  · simp at he

/-- With propagation off, a record logged on `c` is delivered only to
handlers attached to `c` itself. -/
theorem delivered_owner_of_no_propagate (reg : Registry) (c : String)
    (lvl : Level) (msg : String)
    (h : (getLogger reg c).propagate = false) :
    ∀ e ∈ delivered reg c lvl msg, e.owner = c := by
  intro e he
  unfold delivered at he
  split at he
  · rw [chain] at he
    simp only [deliveredOnChain, h, if_neg Bool.false_ne_true] at he
    rcases List.mem_filterMap.1 he with ⟨h'', _, hsome⟩
    split at hsome
    · cases Option.some.inj hsome; rfl
    · cases hsome
  · simp at he

/-- A channel configured as an isolated single-handler sub-log delivers
every sufficiently-leveled record to exactly that handler. -/
theorem delivered_of_isolated (reg : Registry) (c : String) (fh : Handler)
    (lv lvl : Level) (msg : String)
    (hreg : getLogger reg c = { handlers := [fh], propagate := false, level := lv })
    (h0 : lv ≠ 0) (hle : lv ≤ lvl) (hh : fh.level ≤ lvl) :
    delivered reg c lvl msg
      = [{ owner := c, handler := fh, level := lvl, msg := msg }] := by
  unfold delivered effectiveLevel
  rw [chain]
  simp [effLoop, deliveredOnChain, hreg, h0, hle, hh]

/-- Characterization of `SubLog.close` when the release loop finishes
without an exception. -/
theorem close_ok_spec (sl : SubLog) (f : Handler → Bool) (st : LogState)
    (rem : List Handler)
    (h : closeHandlersLoop f (st.get sl.logger_name).handlers = (rem, false)) :
    sl.close f st
      = (((st.log sl.logger_name INFO (finishedMsg sl.name)).set
            sl.logger_name
            { st.get sl.logger_name with handlers := rem }).log
          sl.parent_name INFO (finishBreadcrumb sl), false) := by
  unfold SubLog.close
  simp only [LogState.get_log]
  rw [h]
  simp

/-- Characterization of `SubLog.close` when releasing some handler
raises: the exception escapes and the parent breadcrumb is never
logged. -/
theorem close_fail_spec (sl : SubLog) (f : Handler → Bool) (st : LogState)
    (rem : List Handler)
    (h : closeHandlersLoop f (st.get sl.logger_name).handlers = (rem, true)) :
    sl.close f st
      = ((st.log sl.logger_name INFO (finishedMsg sl.name)).set
            sl.logger_name
            { st.get sl.logger_name with handlers := rem }, true) := by
  unfold SubLog.close
  simp only [LogState.get_log]
  rw [h]
  simp

theorem closeHandlersLoop_noFail :
    ∀ l : List Handler, closeHandlersLoop noFail l = ([], false) := by
  intro l
  induction l with
  | nil => rfl
  | cons h rest ih => simp [closeHandlersLoop, noFail, ih]

/-- The release loop stops at the first failing handler: everything
before it is released, it and everything after stay attached. -/
theorem closeHandlersLoop_append (f : Handler → Bool) (h : Handler)
    (l2 : List Handler) (hf : f h = true) :
    ∀ l1 : List Handler, (∀ x ∈ l1, f x = false) →
      closeHandlersLoop f (l1 ++ h :: l2) = (h :: l2, true) := by
  intro l1
  induction l1 with
  | nil => intro _; simp [closeHandlersLoop, hf]
  | cons a rest ih =>
    intro hpre
    have ha : f a = false := hpre a (List.mem_cons_self a rest)
    simp [closeHandlersLoop, ha, ih (fun x hx => hpre x (List.mem_cons_of_mem a hx))]

/-- Folding a list of log calls over a state appends the corresponding
deliveries and leaves the registry untouched. -/
theorem foldl_log_spec (c : String) :
    ∀ (calls : List (Level × String)) (st : LogState),
      calls.foldl (fun s p => s.log c p.1 p.2) st
        = { loggers := st.loggers,
            events := st.events
              ++ calls.flatMap (fun p => delivered st.loggers c p.1 p.2) } := by
  intro calls
  induction calls with
  | nil => intro st; simp
  | cons p rest ih =>
    intro st
    rw [List.foldl_cons, ih]
    simp [LogState.log, List.append_assoc]

/-- Every log call `run_subprocess` makes is at level INFO or WARNING,
hence at or above DEBUG. -/
theorem subprocessLogCalls_levels (command : String) (r : CompletedProcess) :
    ∀ p ∈ subprocessLogCalls command r, DEBUG ≤ p.1 := by
  intro p hp
  unfold subprocessLogCalls at hp
  have hlvl : p.1 = INFO ∨ p.1 = WARNING := by
    rcases List.mem_append.1 hp with h | h
    · rcases List.mem_append.1 h with h' | h'
      · rcases List.mem_append.1 h' with h'' | h''
        · left
          rw [List.mem_singleton.1 h'']
        · left
          split at h''
          · rcases List.mem_map.1 h'' with ⟨l, _, hl⟩
            rw [← hl]
          · simp at h''
      · right
        split at h'
        · rcases List.mem_map.1 h' with ⟨l, _, hl⟩
          rw [← hl]
        · simp at h'
    · left
      rw [List.mem_singleton.1 h]
  rcases hlvl with h | h <;> rw [h] <;> decide

/-- Folding isolated single-handler deliveries over a call list yields
one event per call. -/
theorem flatMap_delivered_map (reg : Registry) (c : String) (fh : Handler)
    (lv : Level)
    (hreg : getLogger reg c
        = { handlers := [fh], propagate := false, level := lv })
    (h0 : lv ≠ 0) :
    ∀ calls : List (Level × String),
      (∀ p ∈ calls, lv ≤ p.1 ∧ fh.level ≤ p.1) →
      calls.flatMap (fun p => delivered reg c p.1 p.2)
        = calls.map
            (fun p => { owner := c, handler := fh, level := p.1, msg := p.2 }) := by
  intro calls
  induction calls with
  | nil => intro _; simp
  | cons p rest ih =>
    intro hall
    have hp := hall p (List.mem_cons_self p rest)
    have hrest := ih (fun q hq => hall q (List.mem_cons_of_mem p hq))
    simp only [List.flatMap_cons, List.map_cons, hrest,
      delivered_of_isolated reg c fh lv p.1 p.2 hreg h0 hp.1 hp.2]
    rfl

/-- The sub-channel "finished" message is never equal to the parent
finish breadcrumb (their lengths differ for every name and path). -/
theorem finishedMsg_ne_breadcrumb (sl : SubLog) :
    finishedMsg sl.name ≠ finishBreadcrumb sl := by
  intro hEq
  have e1 : String.length "Sub-log '" = 9 := rfl
  have e2 : String.length "' finished" = 10 := rfl
  have e3 : String.length "' finished, log saved to " = 25 := rfl
  have hlen := congrArg String.length hEq
  simp [finishedMsg, finishBreadcrumb, String.length_append, e1, e2, e3]
    at hlen
  omega

/-- One `close()` call on a sub-log whose parent channel has a single
INFO-passing sink and propagation off delivers the parent finish
breadcrumb exactly once, and leaves the parent channel's configuration
unchanged. -/
theorem countFinish_close_step (sl : SubLog) (st : LogState) (fh : Handler)
    (lv : Level) (hne : sl.parent_name ≠ sl.logger_name)
    (hp : st.get sl.parent_name
        = { handlers := [fh], propagate := false, level := lv })
    (h0 : lv ≠ 0) (hlv : lv ≤ INFO) (hfh : fh.level ≤ INFO) :
    countFinish sl (sl.close noFail st).1 = countFinish sl st + 1
      ∧ (sl.close noFail st).1.get sl.parent_name = st.get sl.parent_name := by
  have hs := close_ok_spec sl noFail st [] (closeHandlersLoop_noFail _)
  have hpres : (((st.log sl.logger_name INFO (finishedMsg sl.name)).set
      sl.logger_name { st.get sl.logger_name with handlers := [] }).get
        sl.parent_name) = st.get sl.parent_name := by
    rw [LogState.get_set_ne _ _ _ _ hne, LogState.get_log]
  have hd3 : delivered (((st.log sl.logger_name INFO (finishedMsg sl.name)).set
        sl.logger_name { st.get sl.logger_name with handlers := [] }).loggers)
      sl.parent_name INFO (finishBreadcrumb sl)
      = [{ owner := sl.parent_name, handler := fh, level := INFO,
           msg := finishBreadcrumb sl }] :=
    delivered_of_isolated _ _ fh lv INFO _ (hpres.trans hp) h0 hlv hfh
  have hd1 : List.filter
      (fun e => e.owner == sl.parent_name && e.msg == finishBreadcrumb sl)
      (delivered st.loggers sl.logger_name INFO (finishedMsg sl.name)) = [] := by
    rw [List.filter_eq_nil_iff]
    intro e he
    have hm := delivered_msg _ _ _ _ e he
    simp [hm, finishedMsg_ne_breadcrumb sl]
  constructor
  · rw [hs]
    unfold countFinish
    rw [LogState.log_events, hd3, LogState.set_events, LogState.log_events]
    rw [List.filter_append, List.filter_append, hd1]
    simp
  · rw [hs, LogState.get_log]
    exact hpres

/-! ## Claim theorems -/

/-- C1: immediately after `SubLog.__init__` returns, the sub-log's
channel has `propagate = false` and its handler list is exactly the
file sink at the resolved log-file path (so at least one sink), plus a
console sink exactly when `log_to_console` is true; moreover the
sub-log's channel differs from the parent channel, and every event a
record logged on the sub-log's channel delivers is owned by the
sub-log's channel itself — with propagation off it can never reach the
parent channel's sinks. -/
theorem c1_init_isolation (st : LogState) (name output_dir : String)
    (parent : Option String) (lvl : Level) (console timestamp : Bool)
    (now : String) (mlvl : Level) (msg : String) :
    (((SubLog.init name output_dir parent lvl console timestamp now st).2.get
          (subLoggerName parent name)).propagate = false
        ∧ ((SubLog.init name output_dir parent lvl console timestamp now st).2.get
            (subLoggerName parent name)).handlers
          = { kind := HandlerKind.file (subLogFilePath name output_dir timestamp now),
              level := lvl }
            :: (if console then [{ kind := HandlerKind.console, level := DEBUG }]
                else []))
      ∧ subLoggerName parent name ≠ parentChannel parent
      ∧ (delivered
            (SubLog.init name output_dir parent lvl console timestamp now st).2.loggers
            (subLoggerName parent name) mlvl msg).all
          (fun e => e.owner == subLoggerName parent name) = true := by
  have hget : (SubLog.init name output_dir parent lvl console timestamp now st).2.get
      (subLoggerName parent name)
      = { handlers :=
            { kind := HandlerKind.file (subLogFilePath name output_dir timestamp now),
              level := lvl }
            :: (if console then [{ kind := HandlerKind.console, level := DEBUG }]
                else []),
          propagate := false, level := lvl } := by
    cases console <;>
      simp [SubLog.init, LogState.get_log, LogState.get_set_self]
  have hne : subLoggerName parent name ≠ parentChannel parent := by
    have h8 : String.length ".sublog." = 8 := rfl
    have h16 : String.length "fancylog.sublog." = 16 := rfl
    cases parent with
    | none =>
      intro hEq
      have hlen := congrArg String.length hEq
      simp [subLoggerName, parentChannel, String.length_append, h16] at hlen
    | some p =>
      by_cases hp : p = ""
      · subst hp
        intro hEq
        have hlen := congrArg String.length hEq
        simp [subLoggerName, parentChannel, String.length_append, h16] at hlen
      · intro hEq
        have hlen := congrArg String.length hEq
        simp [subLoggerName, parentChannel, hp, String.length_append, h8] at hlen
        omega
  refine ⟨⟨?_, ?_⟩, hne, ?_⟩
  · rw [hget]
  · rw [hget]
  · have hprop : (getLogger
        (SubLog.init name output_dir parent lvl console timestamp now st).2.loggers
        (subLoggerName parent name)).propagate = false := by
      have := congrArg Logger.propagate hget
      exact this
    rw [List.all_eq_true]
    intro e he
    have := delivered_owner_of_no_propagate _ _ _ _ hprop e he
    simp [this]

/-- C5: for every valid `(parent_logger_name, name)` pair the resolved
sub-log channel name equals `"<parent>.sublog.<name>"` when a (non-empty,
hence truthy) parent name is given, and `"fancylog.sublog.<name>"` when
no parent name is given (sublog.py lines 65-69). -/
theorem c5_channel_name (p name : String) (hp : p ≠ "") :
    subLoggerName (some p) name = p ++ ".sublog." ++ name
      ∧ subLoggerName none name = "fancylog.sublog." ++ name := by
  refine ⟨?_, rfl⟩
  simp [subLoggerName, hp]

theorem c5_channel_name_witness :
    ("main" : String) ≠ ""
      ∧ (subLoggerName (some "main") "pre" = "main" ++ ".sublog." ++ "pre"
          ∧ subLoggerName none "pre" = "fancylog.sublog." ++ "pre") :=
  ⟨by decide, c5_channel_name "main" "pre" (by decide)⟩

/-- C7: calling the session configurer with `multiprocessing_aware`
true together with a truthy (non-empty) `logger_name` raises a
`ValueError` synchronously, whose message names both conflicting
options (fancylog.py lines 545-551). -/
theorem c7_mp_named_conflict (filename : Option String)
    (print_level file_level : Level) (log_to_console : Bool)
    (n : String) (mpAvailable : Bool) (st : LogState) (hn : n ≠ "") :
    (setup_logging filename print_level file_level true log_to_console
        (some n) mpAvailable st).2 = Except.error mpConflictMsg
      ∧ (∃ a b : String, mpConflictMsg = a ++ "multiprocessing_aware" ++ b)
      ∧ (∃ a b : String, mpConflictMsg = a ++ "logger_name" ++ b) := by
  refine ⟨?_,
    ⟨"`", "` is not supportedwith `logger_name`. Multiprocess loggingmust be performed with the root logger.",
      by decide⟩,
    ⟨"`multiprocessing_aware` is not supportedwith `", "`. Multiprocess loggingmust be performed with the root logger.",
      by decide⟩⟩
  simp [setup_logging, truthyName, hn]

theorem c7_mp_named_conflict_witness :
    ("main" : String) ≠ ""
      ∧ ((setup_logging none INFO DEBUG true true (some "main") true
            {}).2 = Except.error mpConflictMsg
          ∧ (∃ a b : String, mpConflictMsg = a ++ "multiprocessing_aware" ++ b)
          ∧ (∃ a b : String, mpConflictMsg = a ++ "logger_name" ++ b)) :=
  ⟨by decide, c7_mp_named_conflict none INFO DEBUG true "main" true {} (by decide)⟩

/-- C10: when `setup_logging` is called with `multiprocessing_aware`
and a truthy `logger_name`, the `ValueError` is raised only after
`initialise_logger` has already reconfigured the named channel: its
prior sinks are cleared (the final handler list does not depend on the
incoming state), `propagate` is false, the level is set, and the new
file/console sinks are attached — the error path is not atomic
(fancylog.py lines 538-551 and 481-507). -/
theorem c10_mutation_before_error (filename : Option String)
    (print_level file_level : Level) (log_to_console : Bool)
    (n : String) (mpAvailable : Bool) (st : LogState) (hn : n ≠ "") :
    (setup_logging filename print_level file_level true log_to_console
        (some n) mpAvailable st).2 = Except.error mpConflictMsg
      ∧ ((setup_logging filename print_level file_level true log_to_console
            (some n) mpAvailable st).1.get n).propagate = false
      ∧ ((setup_logging filename print_level file_level true log_to_console
            (some n) mpAvailable st).1.get n).level = file_level
      ∧ ((setup_logging filename print_level file_level true log_to_console
            (some n) mpAvailable st).1.get n).handlers
          = (match filename with
             | some f => [{ kind := HandlerKind.file f, level := file_level }]
             | none => [])
            ++ (if log_to_console then
                  [{ kind := HandlerKind.console, level := print_level }]
                else []) := by
  refine ⟨?_, ?_, ?_, ?_⟩ <;>
    · simp only [setup_logging, initialise_logger, truthyName, resolvedName,
        LogState.get_set_self]
      cases filename <;>
        simp [hn, LogState.get_set_self, LogState.set, getLogger_cons_self,
          LogState.get] <;>
        cases log_to_console <;> simp

theorem c10_mutation_before_error_witness :
    ("main" : String) ≠ ""
      ∧ ((setup_logging (some "out/log.log") INFO DEBUG true true
            (some "main") true {}).2 = Except.error mpConflictMsg
          ∧ ((setup_logging (some "out/log.log") INFO DEBUG true true
                (some "main") true {}).1.get "main").propagate = false
          ∧ ((setup_logging (some "out/log.log") INFO DEBUG true true
                (some "main") true {}).1.get "main").level = DEBUG
          ∧ ((setup_logging (some "out/log.log") INFO DEBUG true true
                (some "main") true {}).1.get "main").handlers
              = (match (some "out/log.log" : Option String) with
                 | some f => [{ kind := HandlerKind.file f, level := DEBUG }]
                 | none => [])
                ++ (if true then
                      [{ kind := HandlerKind.console, level := INFO }]
                    else [])) :=
  ⟨by decide,
    c10_mutation_before_error (some "out/log.log") INFO DEBUG true "main"
      true {} (by decide)⟩

/-- C2: one `close()` detaches every sink from the sub-log's channel
(`handlers = []`) whatever combination of file/console sinks was
attached, without error; and a second `close()` on the same sub-log —
even in an environment `f` where closing any still-attached handler
would raise — raises no error and leaves zero sinks, because the
release loop iterates over the now-empty handler list
(sublog.py lines 110-122). -/
theorem c2_close_removes_all_and_idempotent (sl : SubLog) (st : LogState)
    (f : Handler → Bool) :
    (((sl.close noFail st).1.get sl.logger_name).handlers = []
        ∧ (sl.close noFail st).2 = false)
      ∧ ((sl.close f (sl.close noFail st).1).2 = false
          ∧ ((sl.close f (sl.close noFail st).1).1.get
                sl.logger_name).handlers = []) := by
  have hs1 := close_ok_spec sl noFail st [] (closeHandlersLoop_noFail _)
  have hget1 : ((sl.close noFail st).1.get sl.logger_name).handlers = [] := by
    rw [hs1]
    simp [LogState.get_log, LogState.get_set_self]
  have hs2 := close_ok_spec sl f (sl.close noFail st).1 []
    (by rw [hget1]; rfl)
  refine ⟨⟨hget1, by rw [hs1]⟩, by rw [hs2], ?_⟩
  rw [hs2]
  simp [LogState.get_log, LogState.get_set_self]

/-- C4 counterexample: with two sinks attached and the file sink's
release raising, `close()` surfaces the error to the caller and leaves
BOTH sinks attached — the failure is not caught per-sink and the
remaining sink is not released, contradicting the claim. -/
theorem c4_counterexample :
    (c4SubLog.close c4Fails c4State).2 = true
      ∧ ((c4SubLog.close c4Fails c4State).1.get
            "fancylog.sublog.s").handlers = [c4Handler1, c4Handler2] := by
  decide

/-- C4 amended: a failure while releasing one sink is NOT caught: the
exception propagates to the caller, the failing sink and every sink
after it remain attached (only sinks processed before the failure were
released), and the parent finish breadcrumb is never emitted — the
post-failure events are exactly those of the sub-log's own "finished"
message (sublog.py lines 110-122 have no try/except). -/
theorem c4_close_failure_aborts_release (sl : SubLog) (st : LogState)
    (f : Handler → Bool) (l1 l2 : List Handler) (h : Handler)
    (hpre : ∀ x ∈ l1, f x = false) (hf : f h = true)
    (hh : (st.get sl.logger_name).handlers = l1 ++ h :: l2) :
    (sl.close f st).2 = true
      ∧ ((sl.close f st).1.get sl.logger_name).handlers = h :: l2
      ∧ (sl.close f st).1.events
          = st.events
            ++ delivered st.loggers sl.logger_name INFO (finishedMsg sl.name) := by
  have hloop : closeHandlersLoop f (st.get sl.logger_name).handlers
      = (h :: l2, true) := by
    rw [hh]; exact closeHandlersLoop_append f h l2 hf l1 hpre
  have hs := close_fail_spec sl f st (h :: l2) hloop
  refine ⟨by rw [hs], ?_, ?_⟩
  · rw [hs]
    simp [LogState.get_set_self]
  · rw [hs]
    simp [LogState.set, LogState.log]

theorem c4_close_failure_aborts_release_witness :
    (∀ x ∈ ([] : List Handler), c4Fails x = false)
      ∧ c4Fails c4Handler1 = true
      ∧ (c4State.get c4SubLog.logger_name).handlers
          = [] ++ c4Handler1 :: [c4Handler2]
      ∧ ((c4SubLog.close c4Fails c4State).2 = true
          ∧ ((c4SubLog.close c4Fails c4State).1.get
                c4SubLog.logger_name).handlers = c4Handler1 :: [c4Handler2]
          ∧ (c4SubLog.close c4Fails c4State).1.events
              = c4State.events
                ++ delivered c4State.loggers c4SubLog.logger_name INFO
                    (finishedMsg c4SubLog.name)) :=
  ⟨by simp, by decide, by decide,
    c4_close_failure_aborts_release c4SubLog c4State c4Fails [] [c4Handler2]
      c4Handler1 (by simp) (by decide) (by decide)⟩

/-- C3: the `sub_log` context manager runs `close()` exactly once on
every exit path of the caller-supplied body and re-raises the body's
fault unchanged.  For a body that logs a sentinel and then finishes
with outcome `r` (either a normal `.ok` return or a raised `.error`):
the wrapper's outcome is exactly `r`; the sub-log channel ends with
zero sinks (close ran); and the final event trace extends the initial
one by exactly one started message, the sentinel (written to the
sub-log's file sink before the sinks were detached), one finished
message and one pass of the parent finish breadcrumb — the single-close
trace. -/
theorem c3_scoped_wrapper (st : LogState) (name output_dir : String)
    (parent : Option String) (timestamp : Bool) (now sentinel : String)
    (r : Except String Unit) :
    (sub_log name output_dir parent DEBUG false timestamp now
        (fun sl s => (s.log sl.logger_name INFO sentinel, r)) st).2 = r
      ∧ ((sub_log name output_dir parent DEBUG false timestamp now
            (fun sl s => (s.log sl.logger_name INFO sentinel, r)) st).1.get
              (subLoggerName parent name)).handlers = []
      ∧ (sub_log name output_dir parent DEBUG false timestamp now
            (fun sl s => (s.log sl.logger_name INFO sentinel, r)) st).1.events
          = st.events
            ++ scopedExpectedEvents st name output_dir parent timestamp now
                sentinel := by
  have hdel : ∀ m, delivered ((subLoggerName parent name,
      { handlers := [{ kind := HandlerKind.file
                         (subLogFilePath name output_dir timestamp now),
                       level := DEBUG }],
        propagate := false, level := DEBUG }) :: st.loggers)
      (subLoggerName parent name) INFO m
      = [{ owner := subLoggerName parent name,
           handler := { kind := HandlerKind.file
                          (subLogFilePath name output_dir timestamp now),
                        level := DEBUG },
           level := INFO, msg := m }] := fun m =>
    delivered_of_isolated _ _ _ DEBUG INFO m (getLogger_cons_self _ _ _)
      (by decide) (by decide) (by show (DEBUG : Level) ≤ INFO; decide)
  refine ⟨rfl, ?_, ?_⟩
  · simp only [sub_log, SubLog.init]
    rw [close_ok_spec _ noFail _ [] (closeHandlersLoop_noFail _)]
    simp [LogState.get_log, LogState.get_set_self]
  · simp only [sub_log, SubLog.init]
    rw [close_ok_spec _ noFail _ [] (closeHandlersLoop_noFail _)]
    simp [LogState.log_events, LogState.set_events, LogState.log_loggers,
      LogState.set_loggers, LogState.get_log, LogState.get_set_self, hdel,
      scopedExpectedEvents, scopedFileHandler, finishedMsg,
      finishBreadcrumb, startedMsg, startBreadcrumbMsg, List.append_assoc]

/-- C9: every `close()` call — including calls on an already-closed
sub-log — logs one "finished" breadcrumb on the parent channel (and
attempts the finished message on the sub-log's own channel): with the
parent channel carrying one INFO-passing sink and no propagation,
after `n` calls to `close()` the parent channel has received exactly
`n` finish breadcrumbs, not one per sub-log (sublog.py lines 110-122
have no closed-state guard). -/
theorem c9_close_breadcrumb_per_call (sl : SubLog) (fh : Handler)
    (lv : Level) (n : Nat) (hne : sl.parent_name ≠ sl.logger_name)
    (h0 : lv ≠ 0) (hlv : lv ≤ INFO) (hfh : fh.level ≤ INFO) :
    ∀ st : LogState,
      st.get sl.parent_name
          = { handlers := [fh], propagate := false, level := lv } →
      countFinish sl (closeIter sl n st) = countFinish sl st + n := by
  induction n with
  | zero => intro st _; simp [closeIter]
  | succ k ih =>
    intro st hp
    have step := countFinish_close_step sl st fh lv hne hp h0 hlv hfh
    show countFinish sl (closeIter sl k (sl.close noFail st).1) = _
    rw [ih (sl.close noFail st).1 (by rw [step.2]; exact hp), step.1]
    omega

theorem c9_close_breadcrumb_per_call_witness :
    c9SubLog.parent_name ≠ c9SubLog.logger_name
      ∧ (DEBUG : Level) ≠ 0
      ∧ DEBUG ≤ INFO
      ∧ c9FileHandler.level ≤ INFO
      ∧ c9State.get c9SubLog.parent_name
          = { handlers := [c9FileHandler], propagate := false, level := DEBUG }
      ∧ countFinish c9SubLog (closeIter c9SubLog 2 c9State)
          = countFinish c9SubLog c9State + 2 :=
  ⟨by decide, by decide, by decide, by decide, by decide,
    c9_close_breadcrumb_per_call c9SubLog c9FileHandler DEBUG 2 (by decide)
      (by decide) (by decide) (by decide) c9State (by decide)⟩

/-- C8 counterexample: for a plain list whose two elements are
record/tuple-style objects (each with a dictionary view and no
`__dict__`), `write_variables` does NOT write each element with its
dictionary view — it calls `_asdict()` on the list itself, which
raises `AttributeError` after only the section banner has been
written. -/
theorem c8_counterexample :
    (write_variables (PyCollection.list c8Records)).2
        = some "AttributeError: _asdict"
      ∧ (write_variables (PyCollection.list c8Records)).1
          = ["\n\n", sectionBanner "VARIABLES", "\n"] := by
  decide

/-- C8 amended: when the collection's first element lacks a
per-instance attribute dictionary, the writer uses the dictionary view
of the COLLECTION OBJECT ITSELF (`variable_objects._asdict()`): one
`key: value` line per field of the collection, not one dump per
element; and when the collection is a plain list (no `_asdict`), an
`AttributeError` escapes instead (fancylog.py lines 327-354). -/
theorem c8_slot_branch_uses_collection_view (idn : Nat) (t a : String)
    (v : PyVal) (fs : List (String × PyVal)) (w : PyVal) (es : List PyVal)
    (hv : hasDictAttr v = false) (hw : hasDictAttr w = false) :
    write_variables (PyCollection.slotColl idn t ((a, v) :: fs))
        = (["\n\n", sectionBanner "VARIABLES", "\n"]
            ++ ((a, v) :: fs).map (fun p => p.1 ++ ": " ++ display p.2 ++ "\n")
            ++ ["\n\n", sectionBanner "LOGGING", "\n\n"], none)
      ∧ (write_variables (PyCollection.list (w :: es))).2
          = some "AttributeError: _asdict" := by
  constructor
  · simp [write_variables, PyCollection.elems, hv, slotTypeChunks,
      PyCollection.asdict?]
  · simp [write_variables, PyCollection.elems, hw, slotTypeChunks,
      PyCollection.asdict?]

/-- C6: on a sub-log channel configured as `SubLog.__init__` leaves it
(one file sink, no propagation, DEBUG level), `run_subprocess` (i)
returns the completed process exactly as the subprocess collaborator
reports it — the exit code is the child's and nothing is raised on a
non-zero code, the helper being total; (ii) leaves the registry
untouched; (iii) appends exactly the expected trace: the command line,
one INFO `[stdout]` line per captured stdout line, one WARNING
`[stderr]` line per captured stderr line and one INFO summary naming
the return code, all on the sub-log's file handler; and (iv) ignores
any caller-supplied `stdout`/`stderr`/`capture_output` routing
overrides — both streams are always captured internally. -/
theorem c6_run_subprocess_capture (sl : SubLog) (st : LogState)
    (fh : Handler) (exec : String → RunKwargs → CompletedProcess)
    (command : String) (kw kw2 : RunKwargs)
    (hreg : st.get sl.logger_name
        = { handlers := [fh], propagate := false, level := DEBUG })
    (hfh : fh.level = DEBUG) :
    (sl.run_subprocess exec command kw st).2
        = exec command
            { stdout := some StreamOpt.pipe, stderr := some StreamOpt.pipe,
              capture_output := none, rest := kw.rest }
      ∧ (sl.run_subprocess exec command kw st).1.loggers = st.loggers
      ∧ (sl.run_subprocess exec command kw st).1.events
          = st.events
            ++ subprocessExpectedEvents sl.logger_name fh command
                (sl.run_subprocess exec command kw st).2
      ∧ sl.run_subprocess exec command { kw2 with rest := kw.rest } st
          = sl.run_subprocess exec command kw st := by
  refine ⟨rfl, ?_, ?_, rfl⟩
  · rw [show sl.run_subprocess exec command kw st
        = ((subprocessLogCalls command
              (exec command
                { stdout := some StreamOpt.pipe, stderr := some StreamOpt.pipe,
                  capture_output := none, rest := kw.rest })).foldl
            (fun s p => s.log sl.logger_name p.1 p.2) st,
           exec command
            { stdout := some StreamOpt.pipe, stderr := some StreamOpt.pipe,
              capture_output := none, rest := kw.rest }) from rfl]
    rw [foldl_log_spec]
  · rw [show sl.run_subprocess exec command kw st
        = ((subprocessLogCalls command
              (exec command
                { stdout := some StreamOpt.pipe, stderr := some StreamOpt.pipe,
                  capture_output := none, rest := kw.rest })).foldl
            (fun s p => s.log sl.logger_name p.1 p.2) st,
           exec command
            { stdout := some StreamOpt.pipe, stderr := some StreamOpt.pipe,
              capture_output := none, rest := kw.rest }) from rfl]
    rw [foldl_log_spec]
    rw [flatMap_delivered_map st.loggers sl.logger_name fh DEBUG hreg
      (by decide) _
      (fun p hp =>
        ⟨subprocessLogCalls_levels command _ p hp,
         by rw [hfh]; exact subprocessLogCalls_levels command _ p hp⟩)]
    rfl

theorem c6_run_subprocess_capture_witness :
    c6State.get c6SubLog.logger_name
        = { handlers := [c6Handler], propagate := false, level := DEBUG }
      ∧ c6Handler.level = DEBUG
      ∧ ((c6SubLog.run_subprocess c6Exec "mycmd" {} c6State).2
            = c6Exec "mycmd"
                { stdout := some StreamOpt.pipe, stderr := some StreamOpt.pipe,
                  capture_output := none, rest := RunKwargs.mk none none none [] |>.rest }
          ∧ (c6SubLog.run_subprocess c6Exec "mycmd" {} c6State).1.loggers
              = c6State.loggers
          ∧ (c6SubLog.run_subprocess c6Exec "mycmd" {} c6State).1.events
              = c6State.events
                ++ subprocessExpectedEvents c6SubLog.logger_name c6Handler "mycmd"
                    (c6SubLog.run_subprocess c6Exec "mycmd" {} c6State).2
          ∧ c6SubLog.run_subprocess c6Exec "mycmd"
                { ({ stdout := some StreamOpt.devnull,
                     stderr := some StreamOpt.inheritStream,
                     capture_output := some true,
                     rest := [] } : RunKwargs) with
                  rest := RunKwargs.mk none none none [] |>.rest } c6State
              = c6SubLog.run_subprocess c6Exec "mycmd" {} c6State) :=
  ⟨by decide, by decide,
    c6_run_subprocess_capture c6SubLog c6State c6Handler c6Exec "mycmd" {}
      { stdout := some StreamOpt.devnull,
        stderr := some StreamOpt.inheritStream,
        capture_output := some true, rest := [] }
      (by decide) (by decide)⟩

theorem c8_slot_branch_uses_collection_view_witness :
    hasDictAttr (PyVal.prim "int" "1") = false
      ∧ hasDictAttr (PyVal.slotObj 1 "Rec" [("a", PyVal.prim "int" "1")]) = false
      ∧ (write_variables
            (PyCollection.slotColl 7 "Cfg"
              (("a", PyVal.prim "int" "1") :: [("b", PyVal.prim "int" "2")]))
          = (["\n\n", sectionBanner "VARIABLES", "\n"]
              ++ ((("a", PyVal.prim "int" "1") :: [("b", PyVal.prim "int" "2")]).map
                    (fun p => p.1 ++ ": " ++ display p.2 ++ "\n"))
              ++ ["\n\n", sectionBanner "LOGGING", "\n\n"], none)
          ∧ (write_variables
                (PyCollection.list
                  (PyVal.slotObj 1 "Rec" [("a", PyVal.prim "int" "1")]
                    :: [PyVal.slotObj 2 "Rec" [("b", PyVal.prim "int" "2")]]))).2
              = some "AttributeError: _asdict") :=
  ⟨rfl, rfl,
    c8_slot_branch_uses_collection_view 7 "Cfg" "a" (PyVal.prim "int" "1")
      [("b", PyVal.prim "int" "2")]
      (PyVal.slotObj 1 "Rec" [("a", PyVal.prim "int" "1")])
      [PyVal.slotObj 2 "Rec" [("b", PyVal.prim "int" "2")]] rfl rfl⟩

end Fancylog
